import Mathlib

/-!
Verification of the encoding contract of the module
src/ollama-rs/src/generation/parameters.rs.

The file embeds the two value types of that module — FormatType (response
format: plain "json" or an inlined JSON Schema) and KeepAlive (model
keep-alive duration) — together with their custom serde Serialize /
Deserialize implementations, as pure Lean functions over a JSON value type.
Wire values are `Json` values; fallible serde operations return `Except`.
-/

/-- A JSON wire value, as produced by a serde value serializer
(serde_json::Value): null, booleans, integers, strings, arrays, objects. -/
inductive Json where
  | null
  | bool (b : Bool)
  | num (n : Int)
  | str (s : String)
  | arr (elems : List Json)
  | obj (fields : List (String × Json))
deriving Repr

/-- Whether a JSON value is a string. -/
def Json.isStr : Json → Bool
  | .str _ => true
  | _ => false

/-- Errors a serde Serializer may report. The encoders in this module never
construct one; the kind exists because the serde serialize signature is
fallible. -/
inductive SerError where
  | custom (msg : String)
deriving Repr, DecidableEq

/-- Errors the FormatType deserializer may report: a serde type error from
String::deserialize when the wire value is not a string, or the
schema-parse error (serde::de::Error::custom wrapping the serde_json
diagnostic) when the string payload is not a parseable schema document. -/
inductive DeError where
  | invalidType (msg : String)
  | schemaParseError (diag : String)
deriving Repr, DecidableEq

/-- Model of serializer.serialize_str(s): emits the JSON string s. Total. -/
def serializeStr (s : String) : Except SerError Json :=
  .ok (.str s)

/-- Model of serializer.serialize_i8(n): emits the JSON integer n. Total. -/
def serializeI8 (n : Int) : Except SerError Json :=
  .ok (.num n)

/-- Model of schemars::schema::RootSchema: the root JSON Schema document held
by a JsonStructure. It carries the optional meta-schema URI (the field
serialized as a key named dollar-schema) and the flattened fields of the root
schema object; serde renders it as a JSON object. -/
structure RootSchema where
  metaSchema : Option String
  schemaBody : List (String × Json)
deriving Repr

/-- The JSON object a RootSchema serializes to: the meta-schema field when
present, followed by the flattened root schema object fields. -/
def RootSchema.toJson (r : RootSchema) : Json :=
  .obj ((match r.metaSchema with
          | some u => [("$schema", Json.str u)]
          | none => []) ++ r.schemaBody)

/-- The Serialize impl of RootSchema: always succeeds with the schema
document as an embedded JSON object. -/
def RootSchema.serialize (r : RootSchema) : Except SerError Json :=
  .ok r.toJson

/-- The JsonStructure struct: wraps a normalized schema document (its field
`schema: RootSchema`). -/
structure JsonStructure where
  schema : RootSchema
deriving Repr

/-- The FormatType enum: the format to return a response in — Json or
StructuredJson(JsonStructure). -/
inductive FormatType where
  | json
  | structuredJson (s : JsonStructure)
deriving Repr

/-- Embedding of impl Serialize for FormatType: the Json variant serializes
as the string "json"; StructuredJson(s) delegates to
s.schema.serialize(serializer). -/
def FormatType.serialize : FormatType → Except SerError Json
  | .json => serializeStr "json"
  | .structuredJson s => s.schema.serialize

/-- Model of String::deserialize on a JSON wire value: succeeds exactly on
string values, with a serde type error otherwise. -/
def stringDeserialize : Json → Except DeError String
  | .str s => .ok s
  | _ => .error (.invalidType "invalid type, expected a string")

/-- Embedding of impl Deserialize for FormatType: read the wire value as a
String (propagating its error); if it equals "json" produce the Json variant,
otherwise run serde_json::from_str::<RootSchema> — abstracted here as the
`parse` argument, since that parser is library code — wrapping success as
StructuredJson and failure as a custom (schema-parse) error. -/
def FormatType.deserialize (parse : String → Except String RootSchema)
    (v : Json) : Except DeError FormatType :=
  match stringDeserialize v with
  | .error e => .error e
  | .ok s =>
    if s = "json" then
      .ok FormatType.json
    else
      match parse s with
      | .ok schema => .ok (FormatType.structuredJson ⟨schema⟩)
      | .error e => .error (DeError.schemaParseError e)

/-- The TimeUnit enum: Seconds, Minutes, Hours. -/
inductive TimeUnit where
  | seconds
  | minutes
  | hours
deriving Repr, DecidableEq

/-- Embedding of TimeUnit::to_symbol: the fixed textual symbol of each
unit. -/
def TimeUnit.to_symbol : TimeUnit → String
  | .seconds => "s"
  | .minutes => "m"
  | .hours => "hr"

/-- The KeepAlive enum: how long a model stays loaded. The field `time` is a
Rust u64, embedded as a natural number. -/
inductive KeepAlive where
  | indefinitely
  | unloadOnCompletion
  | until (time : Nat) (unit : TimeUnit)
deriving Repr, DecidableEq

/-- Embedding of impl Serialize for KeepAlive: Indefinitely calls
serialize_i8(-1), UnloadOnCompletion calls serialize_i8(0), and
Until { time, unit } serializes the string built by pushing time.to_string()
and then unit.to_symbol() onto an empty string. -/
def KeepAlive.serialize : KeepAlive → Except SerError Json
  | .indefinitely => serializeI8 (-1)
  | .unloadOnCompletion => serializeI8 0
  | .until time unit =>
    let s := ""
    let s := s ++ time.repr
    let s := s ++ unit.to_symbol
    serializeStr s

/-! ## Schema generation (JsonStructure::new)

JsonStructure::new::<T>() configures the schemars draft-07 generator with
inline_subschemas = true and runs it on T. The generator itself is library
code, absent from this repository, so it is modelled from the spec below;
`JsonStructure.new` itself mirrors the Rust source line by line over that
model. -/

mutual

/-- Modelled from the spec: the shape of a schema-describable type (the
JsonSchema capability), which the schemars generator is missing from the
sources. A shape is a primitive, an array of a shape, an object with named
fields, or a named (nominal) type whose occurrences the generator renders as
reference pointers unless subschema inlining is on. -/
inductive TypeDesc where
  | prim (name : String)
  | array (elem : TypeDesc)
  | object (fields : FieldsDesc)
  | named (name : String) (body : TypeDesc)

/-- Modelled from the spec: the named fields of an object shape. -/
inductive FieldsDesc where
  | nil
  | cons (name : String) (ty : TypeDesc) (rest : FieldsDesc)

end

/-- Model of schemars::gen::SchemaSettings: the two settings touched by
JsonStructure::new — the meta-schema URI and whether subschemas are
inlined. -/
structure SchemaSettings where
  meta_schema : Option String
  inline_subschemas : Bool

/-- The draft-07 meta-schema URI. -/
def draft07Uri : String := "http://json-schema.org/draft-07/schema#"

/-- Model of SchemaSettings::draft07(): draft-07 defaults; subschema inlining
is off by default. -/
def SchemaSettings.draft07 : SchemaSettings :=
  { meta_schema := some draft07Uri, inline_subschemas := false }

mutual

/-- Modelled from the spec: the schemars generator body, absent from this
repository. It produces the fields of a draft-07 schema object for a shape;
when `inline` is off, a named type becomes a reference-indirection node (a
field keyed by dollar-ref holding a JSON-pointer string into the definitions
section), and when it is on, the body schema of the named type is inlined in
place instead. -/
def genSchemaFields (inline : Bool) : TypeDesc → List (String × Json)
  | .prim n => [("type", .str n)]
  | .array e => [("type", .str "array"), ("items", .obj (genSchemaFields inline e))]
  | .object fs => [("type", .str "object"), ("properties", .obj (genProps inline fs))]
  | .named n body =>
    if inline then genSchemaFields inline body
    else [("$ref", .str ("#/definitions/" ++ n))]

/-- Modelled from the spec: the properties map the generator emits for the
fields of an object shape. -/
def genProps (inline : Bool) : FieldsDesc → List (String × Json)
  | .nil => []
  | .cons n t rest => (n, .obj (genSchemaFields inline t)) :: genProps inline rest

end

/-- Embedding of JsonStructure::new::<T>(): take draft-07 settings, set
inline_subschemas = true (because Ollama does not support references in the
schema), turn the settings into a generator, and produce the root schema for
T. -/
def JsonStructure.new (T : TypeDesc) : JsonStructure :=
  let settings := SchemaSettings.draft07
  let settings := { settings with inline_subschemas := true }
  let schema : RootSchema :=
    { metaSchema := settings.meta_schema
      schemaBody := genSchemaFields settings.inline_subschemas T }
  ⟨schema⟩

/-- Whether one object field is a reference-indirection node: per draft-07, a
member keyed dollar-ref whose value is a (JSON-pointer) string. A field that
merely has that key but holds a sub-schema object — e.g. a property named
dollar-ref inside a properties map — is not a reference node. -/
def isRefNodeField (kv : String × Json) : Nat :=
  if kv.1 = "$ref" then (if kv.2.isStr then 1 else 0) else 0

mutual

/-- The number of reference-indirection nodes anywhere in a JSON document;
the document is reference-free exactly when this is zero. -/
def refCount : Json → Nat
  | .null => 0
  | .bool _ => 0
  | .num _ => 0
  | .str _ => 0
  | .arr xs => refCountArr xs
  | .obj fs => refCountFields fs

/-- Reference-indirection nodes occurring in a list of JSON values. -/
def refCountArr : List Json → Nat
  | [] => 0
  | x :: xs => refCount x + refCountArr xs

/-- Reference-indirection nodes occurring in the field list of an object: the
field itself if it is a reference node, plus whatever its value contains. -/
def refCountFields : List (String × Json) → Nat
  | [] => 0
  | kv :: fs => isRefNodeField kv + refCount kv.2 + refCountFields fs

end

/-- Appending to the empty string is the identity (the initial
String::new() of the KeepAlive::Until encoder). -/
theorem string_empty_append (s : String) : "" ++ s = s := by
  cases s
  rfl

mutual

/-- With subschema inlining on, the generator emits no reference node for any
shape. -/
theorem refCountFields_gen_inline : ∀ T : TypeDesc, refCountFields (genSchemaFields true T) = 0
  | .prim n => by
    simp [genSchemaFields, refCountFields, refCount, isRefNodeField, Json.isStr]
  | .array e => by
    have ih := refCountFields_gen_inline e
    simp [genSchemaFields, refCountFields, refCount, isRefNodeField, Json.isStr, ih]
  | .object fs => by
    have ih := refCountProps_gen_inline fs
    simp [genSchemaFields, refCountFields, refCount, isRefNodeField, Json.isStr, ih]
  | .named n body => by
    have ih := refCountFields_gen_inline body
    simp [genSchemaFields, ih]

/-- With subschema inlining on, the generated properties map of an object
shape contains no reference node. -/
theorem refCountProps_gen_inline : ∀ fs : FieldsDesc, refCountFields (genProps true fs) = 0
  | .nil => rfl
  | .cons n t rest => by
    have ih1 := refCountFields_gen_inline t
    have ih2 := refCountProps_gen_inline rest
    simp [genProps, refCountFields, refCount, isRefNodeField, Json.isStr, ih1, ih2]

end

/-- C1: decoding a FormatType wire value that is a string yields the Json
variant exactly when the string equals "json"; any other string is handed to
the schema parser, yielding StructuredJson wrapping the parsed schema exactly
when the parse succeeds, and failing with a SchemaParseError carrying the
underlying parse diagnostic exactly when the parse fails — no other error
kind is produced on a string payload. -/
theorem spec_c1_format_decode_characterization
    (parse : String → Except String RootSchema) (s : String) :
    (FormatType.deserialize parse (.str s) = .ok FormatType.json ↔ s = "json")
    ∧ (∀ js : JsonStructure,
        FormatType.deserialize parse (.str s) = .ok (FormatType.structuredJson js)
          ↔ (s ≠ "json" ∧ parse s = .ok js.schema))
    ∧ (∀ e : DeError,
        FormatType.deserialize parse (.str s) = .error e
          ↔ (s ≠ "json" ∧ ∃ d, parse s = .error d ∧ e = DeError.schemaParseError d)) := by
  by_cases h : s = "json"
  · subst h
    refine ⟨by simp [FormatType.deserialize, stringDeserialize], ?_, ?_⟩
    · intro js
      simp [FormatType.deserialize, stringDeserialize]
    · intro e
      simp [FormatType.deserialize, stringDeserialize]
  · cases hp : parse s with
    | ok sch =>
      refine ⟨?_, ?_, ?_⟩
      · simp [FormatType.deserialize, stringDeserialize, h, hp]
      · intro js
        cases js with
        | mk schema =>
          simp [FormatType.deserialize, stringDeserialize, h, hp]
      · intro e
        simp [FormatType.deserialize, stringDeserialize, h, hp]
    | error d =>
      refine ⟨?_, ?_, ?_⟩
      · simp [FormatType.deserialize, stringDeserialize, h, hp]
      · intro js
        simp [FormatType.deserialize, stringDeserialize, h, hp]
      · intro e
        simp [FormatType.deserialize, stringDeserialize, h, hp]
        constructor
        · intro he
          exact he.symm
        · intro he
          exact he.symm

/-- C1 witness: at the concrete parser that accepts nothing, decoding the
string "json" yields the Json variant and decoding "nope" fails with the
SchemaParseError kind. -/
theorem spec_c1_format_decode_characterization_witness :
    FormatType.deserialize (fun s => Except.error s) (.str "json") = .ok FormatType.json
    ∧ FormatType.deserialize (fun s => Except.error s) (.str "nope")
        = .error (DeError.schemaParseError "nope") :=
  ⟨(spec_c1_format_decode_characterization (fun s => Except.error s) "json").1.mpr rfl,
   ((spec_c1_format_decode_characterization (fun s => Except.error s) "nope").2.2
      (DeError.schemaParseError "nope")).mpr
     ⟨by decide, "nope", rfl, rfl⟩⟩

/-- C2: for every natural number t and every unit u, encoding
KeepAlive::Until(time = t, unit = u) succeeds with the wire string formed by
concatenating the decimal representation of t with the symbol of u; in
particular t = 5, u = Hours gives "5hr". The encoder is defined on all of
Nat, so no bound on t is enforced. -/
theorem spec_c2_keepalive_until_encoding (t : Nat) (u : TimeUnit) :
    KeepAlive.serialize (.until t u) = .ok (.str (t.repr ++ u.to_symbol))
    ∧ KeepAlive.serialize (.until 5 .hours) = .ok (.str "5hr") := by
  refine ⟨?_, by rfl⟩
  simp only [KeepAlive.serialize, serializeStr, string_empty_append]

/-- C3: encoding FormatType::StructuredJson(s) succeeds with exactly the
schema document held by s, embedded directly as a structured JSON value — a
JSON object — and in particular never as a JSON string. -/
theorem spec_c3_structured_serializes_embedded_document (s : JsonStructure) :
    FormatType.serialize (.structuredJson s) = .ok s.schema.toJson
    ∧ (∃ fields, s.schema.toJson = Json.obj fields)
    ∧ ∀ str, FormatType.serialize (.structuredJson s) ≠ .ok (Json.str str) := by
  refine ⟨rfl, ⟨_, rfl⟩, ?_⟩
  intro str h
  simp [FormatType.serialize, RootSchema.serialize, RootSchema.toJson] at h

/-- C4: encoding KeepAlive::Indefinitely yields exactly the signed integer
-1, and encoding KeepAlive::UnloadOnCompletion yields exactly the signed
integer 0. -/
theorem spec_c4_keepalive_sentinels :
    KeepAlive.serialize .indefinitely = .ok (.num (-1))
    ∧ KeepAlive.serialize .unloadOnCompletion = .ok (.num 0) :=
  ⟨rfl, rfl⟩

/-- C5: encoding FormatType::Json yields exactly the string wire value
"json". -/
theorem spec_c5_format_json_encoding :
    FormatType.serialize FormatType.json = .ok (Json.str "json") :=
  rfl

/-- C6: encode-then-decode of FormatType::Json is the identity — whatever
schema parser the decoder is instantiated with, decoding the wire value
produced by encoding FormatType::Json yields FormatType::Json again. -/
theorem spec_c6_json_roundtrip (parse : String → Except String RootSchema)
    (v : Json) (h : FormatType.serialize FormatType.json = .ok v) :
    FormatType.deserialize parse v = .ok FormatType.json := by
  have hv : v = Json.str "json" := by
    simpa [FormatType.serialize, serializeStr] using h.symm
  subst hv
  simp [FormatType.deserialize, stringDeserialize]

/-- C6 witness: the round trip at the concrete parser that accepts
nothing. -/
theorem spec_c6_json_roundtrip_witness :
    FormatType.deserialize (fun s => Except.error s) (Json.str "json")
      = .ok FormatType.json :=
  spec_c6_json_roundtrip (fun s => Except.error s) (Json.str "json") rfl

/-- C7: for every schema-describable shape T, the schema document produced by
JsonStructure::new::<T>() contains no reference-indirection nodes: every
sub-schema is inlined, so the serialized draft-07 document is fully
self-contained. -/
theorem spec_c7_new_schema_is_ref_free (T : TypeDesc) :
    refCount (RootSchema.toJson (JsonStructure.new T).schema) = 0 := by
  have h := refCountFields_gen_inline T
  simp [JsonStructure.new, RootSchema.toJson, SchemaSettings.draft07, refCount,
    refCountFields, isRefNodeField, Json.isStr, h]

/-- C8: every encoding operation is total and introduces no error of its own:
KeepAlive serialization succeeds on all three variants, FormatType
serialization succeeds on both variants, and TimeUnit::to_symbol produces a
symbol for every unit. -/
theorem spec_c8_encoders_total :
    (∀ k : KeepAlive, ∃ v, KeepAlive.serialize k = .ok v)
    ∧ (∀ f : FormatType, ∃ v, FormatType.serialize f = .ok v)
    ∧ (∀ u : TimeUnit, ∃ s, TimeUnit.to_symbol u = s) := by
  refine ⟨?_, ?_, ?_⟩
  · intro k
    cases k <;> exact ⟨_, rfl⟩
  · intro f
    cases f <;> exact ⟨_, rfl⟩
  · intro u
    exact ⟨_, rfl⟩

/-- C9: TimeUnit::to_symbol maps Seconds to "s", Minutes to "m" and Hours to
"hr"; being a Lean function on the three-value enumeration, it is pure and
total with no failure mode. -/
theorem spec_c9_to_symbol_mapping :
    TimeUnit.to_symbol .seconds = "s"
    ∧ TimeUnit.to_symbol .minutes = "m"
    ∧ TimeUnit.to_symbol .hours = "hr" :=
  ⟨rfl, rfl, rfl⟩

/-- C10: encode-then-decode of FormatType::StructuredJson always fails: the
encoder emits the schema as an embedded JSON object, the decoder first reads
the wire value as a JSON string, so decoding the encoded structured variant
never yields a FormatType value, whatever schema parser is supplied. -/
theorem spec_c10_structured_roundtrip_fails
    (parse : String → Except String RootSchema) (s : JsonStructure) (v : Json)
    (h : FormatType.serialize (.structuredJson s) = .ok v) :
    (FormatType.deserialize parse v).isOk = false := by
  have hv : v = s.schema.toJson := by
    simpa [FormatType.serialize, RootSchema.serialize] using h.symm
  subst hv
  simp [FormatType.deserialize, stringDeserialize, RootSchema.toJson, Except.isOk,
    Except.toBool]

/-- C10 witness: the failed round trip at a concrete empty schema and the
parser that accepts nothing. -/
theorem spec_c10_structured_roundtrip_fails_witness :
    (FormatType.deserialize (fun s => Except.error s)
        (FormatType.serialize (FormatType.structuredJson ⟨⟨none, []⟩⟩)
          |>.toOption.getD Json.null)).isOk = false :=
  spec_c10_structured_roundtrip_fails (fun s => Except.error s) ⟨⟨none, []⟩⟩ _ rfl
